import Mathlib

/-!
Verification development for the WhyteBox CNN-visualizer's attribution and
visualization layer.  The JavaScript sources are shallowly embedded: tensors
become nested lists of exact rationals, the external tensor engine's opaque
services (model forward passes, autodiff gradients, bilinear resize, square
root) become explicit function parameters, and the IEEE special values that
JavaScript arithmetic can produce (NaN, ±Infinity) are modelled by the
`JSF` type where claims hinge on them.
-/

namespace WhyteBox

/-- JavaScript double arithmetic restricted to what the visualizer needs:
exact rational values plus the IEEE special values NaN, +Infinity and
-Infinity.  Rounding is ignored (all source computations here are exact in
the ranges the claims exercise), but the special-value propagation rules of
IEEE-754 / JavaScript are kept. -/
inductive JSF where
  | num (q : ℚ)
  | nan
  | inf
  | ninf
deriving DecidableEq, Repr

namespace JSF

/-- JavaScript unary minus. -/
def neg : JSF → JSF
  | num q => num (-q)
  | nan => nan
  | inf => ninf
  | ninf => inf

/-- JavaScript addition with IEEE special values. -/
def add : JSF → JSF → JSF
  | num a, num b => num (a + b)
  | num _, inf => inf
  | num _, ninf => ninf
  | inf, num _ => inf
  | ninf, num _ => ninf
  | inf, inf => inf
  | ninf, ninf => ninf
  | _, _ => nan

/-- JavaScript subtraction. -/
def sub (a b : JSF) : JSF := add a (neg b)

/-- JavaScript multiplication with IEEE special values
(`Infinity * 0 = NaN`, sign rules otherwise). -/
def mul : JSF → JSF → JSF
  | num a, num b => num (a * b)
  | num a, inf => if a = 0 then nan else if 0 < a then inf else ninf
  | num a, ninf => if a = 0 then nan else if 0 < a then ninf else inf
  | inf, num b => if b = 0 then nan else if 0 < b then inf else ninf
  | ninf, num b => if b = 0 then nan else if 0 < b then ninf else inf
  | inf, inf => inf
  | ninf, ninf => inf
  | inf, ninf => ninf
  | ninf, inf => ninf
  | _, _ => nan

/-- JavaScript division with IEEE special values
(`0/0 = NaN`, `x/0 = ±Infinity` for `x ≠ 0`, `x/±Infinity = 0`). -/
def div : JSF → JSF → JSF
  | num a, num b =>
      if b = 0 then (if a = 0 then nan else if 0 < a then inf else ninf)
      else num (a / b)
  | num _, inf => num 0
  | num _, ninf => num 0
  | inf, num b => if 0 ≤ b then inf else ninf
  | ninf, num b => if 0 ≤ b then ninf else inf
  | _, _ => nan

/-- JavaScript `Math.abs` / `tf.abs`. -/
def abs : JSF → JSF
  | num q => num |q|
  | nan => nan
  | inf => inf
  | ninf => inf

end JSF

/-! ### Tensors for the Integrated Gradients embedding

The attribution tensor has shape `[1, H, W, C]`; the batch axis is always 1
in the source (`expandDims(0)`), and the spatial axes only ever undergo
elementwise operations, so a tensor is represented as a list of pixels, each
pixel being its list of channel values.  The final `tf.sum(tf.abs(·), -1)`
reduces each pixel's channel list to one number. -/

/-- A pixel: the values along the channel (last) axis. -/
abbrev PixIG := List JSF

/-- An attribution-sized tensor: spatial positions flattened, channel axis kept. -/
abbrev TensorIG := List PixIG

/-- Elementwise binary operation on tensors of equal shape. -/
def tZip (f : JSF → JSF → JSF) (x y : TensorIG) : TensorIG :=
  List.zipWith (List.zipWith f) x y

/-- Embedding of `tf.sub`, elementwise. -/
def tSub (x y : TensorIG) : TensorIG := tZip JSF.sub x y

/-- Embedding of `tf.add`, elementwise. -/
def tAdd (x y : TensorIG) : TensorIG := tZip JSF.add x y

/-- Embedding of `tf.mul`, elementwise. -/
def tMulT (x y : TensorIG) : TensorIG := tZip JSF.mul x y

/-- Tensor-scalar multiplication (`tensor.mul(s)`). -/
def tMulS (x : TensorIG) (s : JSF) : TensorIG := x.map (·.map (fun v => JSF.mul v s))

/-- Tensor-scalar division (`tensor.div(s)`). -/
def tDivS (x : TensorIG) (s : JSF) : TensorIG := x.map (·.map (fun v => JSF.div v s))

/-- Embedding of `tf.zeros(input.shape)`. -/
def tZerosLike (x : TensorIG) : TensorIG := x.map (·.map (fun _ => JSF.num 0))

/-- Embedding of `tf.sum(tf.abs(t), -1)`: per pixel, sum of absolute channel values. -/
def sumAbsChannels (x : TensorIG) : List JSF :=
  x.map (fun px => px.foldl (fun s v => JSF.add s (JSF.abs v)) (JSF.num 0))

namespace IntegratedGradients

/-- Shallow embedding of `IntegratedGradients.integratedGradients`
(`src/cnn-visualizer/public/utils/IntegratedGradients.js`, lines 67-115).
`modelGrad c x` stands for the external autodiff service
`tf.grad(x => model.predict(x).gather([c], 1))` evaluated at `x`.
Note the source computes `delta = (input - baseline) / steps` and then
`scaledDelta = delta.mul(i / steps)`, where `i / steps` is a plain
JavaScript number division. -/
def integratedGradients (modelGrad : Nat → TensorIG → TensorIG)
    (input baseline : TensorIG) (classIndex steps : Nat) : List JSF :=
  let delta := tDivS (tSub input baseline) (JSF.num steps)
  let gradientSum :=
    (List.range (steps + 1)).foldl
      (fun gsum i =>
        let scaledDelta := tMulS delta (JSF.div (JSF.num i) (JSF.num steps))
        let interpolatedInput := tAdd baseline scaledDelta
        let gradients := modelGrad classIndex interpolatedInput
        tAdd gsum gradients)
      (tZerosLike input)
  let averagedGradients := tDivS gradientSum (JSF.num (steps + 1))
  let inputDiff := tSub input baseline
  let attributions := tMulT inputDiff averagedGradients
  sumAbsChannels attributions

/-- Modelled from the spec's words, for comparison with the source: the
interpolated input is `baseline + (i/steps) * (input - baseline)` for
`i = 0..steps`, gradients are averaged over the `steps+1` samples, the
average is multiplied elementwise by `(input - baseline)`, and absolute
values are summed across the channel axis. -/
def specIntegratedGradients (modelGrad : Nat → TensorIG → TensorIG)
    (input baseline : TensorIG) (classIndex steps : Nat) : List JSF :=
  let gradientSum :=
    (List.range (steps + 1)).foldl
      (fun gsum i =>
        let scaledDelta := tMulS (tSub input baseline) (JSF.div (JSF.num i) (JSF.num steps))
        let interpolatedInput := tAdd baseline scaledDelta
        let gradients := modelGrad classIndex interpolatedInput
        tAdd gsum gradients)
      (tZerosLike input)
  let averagedGradients := tDivS gradientSum (JSF.num (steps + 1))
  let inputDiff := tSub input baseline
  let attributions := tMulT inputDiff averagedGradients
  sumAbsChannels attributions

/-- Gradient of the toy model `f(x) = sum of squares of x` for any class
index: `∂f/∂x = 2x`.  Used to instantiate the opaque model in
counterexamples; it propagates NaN inputs to NaN gradients exactly as a
tensor engine evaluating `2 * x` would. -/
def sqGrad : Nat → TensorIG → TensorIG := fun _ x => tMulS x (JSF.num 2)

end IntegratedGradients

/-! ### Tensors for the GradCAM, filter and activation embeddings

Rank-3 tensors `[H, W, C]` as nested lists (the source's batch axis is
always 1 and is folded away; reductions over axes `[0, 1, 2]` of a
`[1, H, W, C]` tensor coincide with reductions over `H, W` here). -/

/-- A `[H][W][C]` tensor of exact rationals. -/
abbrev T3 := List (List (List ℚ))

/-- A `[H][W]` map of exact rationals. -/
abbrev Map2 := List (List ℚ)

/-- Pointwise map over a rank-3 tensor. -/
def t3map (f : ℚ → ℚ) (t : T3) : T3 := t.map (·.map (·.map f))

/-- All entries of a `[H][W]` map, row-major. -/
def flat2 (m : Map2) : List ℚ := m.flatten

/-- Global maximum of a `[H][W]` map (`tf.max`); 0 on the empty map, which
the source never hits. -/
def listMaxQ (l : List ℚ) : ℚ :=
  match l with
  | [] => 0
  | x :: xs => xs.foldl max x

/-- Global minimum of a `[H][W]` map (`tf.min`). -/
def listMinQ (l : List ℚ) : ℚ :=
  match l with
  | [] => 0
  | x :: xs => xs.foldl min x

/-- Division as JavaScript performs it, for a rational numerator and a
possibly-zero rational denominator: `0/0 = NaN`, `x/0 = ±Infinity`. -/
def jsDivQ (a d : ℚ) : JSF :=
  if d = 0 then (if a = 0 then JSF.nan else if 0 < a then JSF.inf else JSF.ninf)
  else JSF.num (a / d)

/-- Whether a JavaScript number lies in `[0, 1]` (NaN and ±Infinity do not). -/
def inUnit : JSF → Bool
  | JSF.num q => decide (0 ≤ q ∧ q ≤ 1)
  | _ => false

namespace GradCAM

/-- A layer handle of the attached TensorFlow.js model, as GradCAM uses it:
its name and the value the source reads through
`targetLayer.output.arraySync()`.  In the layers API `targetLayer.output`
is the layer's symbolic graph tensor, so this read is NOT the activation
computed by the gradient pass on the preprocessed input; it is modelled as
a stored per-layer value independent of that input. -/
structure LayerH where
  name : String
  symbolicOutput : T3
deriving DecidableEq, Repr

/-- The attached model, with the external tensor-engine services GradCAM
invokes: `predictOut` is `tfModel.predict` (class scores), `gradAt l c x`
is the autodiff gradient of `predictions.gather([c], 1)` with respect to
layer `l`'s activation when the model runs on `x`, and `forwardAt l x` is
the true forward-pass activation of layer `l` on `x` (what a consistent
single pass would hand back alongside the gradients). -/
structure ModelH where
  layers : List LayerH
  predictOut : T3 → List ℚ
  gradAt : String → Nat → T3 → T3
  forwardAt : String → T3 → T3

/-- Embedding of `this.tfModel.getLayer(layerName)`, as an optional lookup. -/
def getLayer (m : ModelH) (layerName : String) : Option LayerH :=
  m.layers.find? (fun l => l.name == layerName)

/-- Embedding of `tf.argMax(predictions, 1)`: index of the first maximal score. -/
def argmaxIdx (l : List ℚ) : Nat :=
  match (l.enum.foldl
      (fun best p =>
        match best with
        | none => some p
        | some b => if b.2 < p.2 then some p else some b)
      none : Option (Nat × ℚ)) with
  | some b => b.1
  | none => 0

/-- Pixel normalization of `GradCAM.preprocessImage` (`src/unnamed/part_000`,
lines 90-101): `(v - 127.5) / 127.5`, written with exact rationals. -/
def gcNormPix (v : ℚ) : ℚ := (v - 255/2) / (255/2)

/-- Embedding of `GradCAM.preprocessImage`: bilinear resize to 224×224 (the external
engine op, passed as `R`), batch of 1 (folded), then scale to `[-1, 1]`. -/
def preprocessImage (R : T3 → T3) (img : T3) : T3 := t3map gcNormPix (R img)

/-- Embedding of `tf.mean(grads, [0, 1, 2])`: per-channel mean over the batch and both
spatial axes (batch is 1). -/
def meanHW (g : T3) : List ℚ :=
  let cells := g.flatten
  match cells with
  | [] => []
  | c0 :: _ =>
      (List.range c0.length).map
        (fun c => (cells.map (fun cell => cell.getD c 0)).sum / cells.length)

/-- The weighted combination and rectification of `generateHeatmap`
(lines 67-70): `relu(sum_c weights[c] * conv[h][w][c])`. -/
def heatmapOf (weights : List ℚ) (conv : T3) : Map2 :=
  conv.map (·.map (fun cell => max 0 (List.zipWith (· * ·) weights cell).sum))

/-- The normalization step of `generateHeatmap` (lines 72-76):
`tf.div(heatmap, tf.sub(tf.max(heatmap), tf.min(heatmap)))` — the heatmap
is divided by `max - min`; no epsilon is added and the minimum is not
subtracted from the numerator, so the division is by zero on a constant
map, which JavaScript turns into NaN/±Infinity values. -/
def normalizeHeatmap (h : Map2) : List (List JSF) :=
  let d := listMaxQ (flat2 h) - listMinQ (flat2 h)
  h.map (·.map (fun v => jsDivQ v d))

/-- Outcome of `generateHeatmap`: the source returns the normalized heatmap
tensor, or `null` after logging either a missing-model or a missing-layer
error; the two `null` paths are kept distinct here to record which check
fired. -/
inductive GCResult where
  | ok (heatmap : List (List JSF))
  | modelUnavailable
  | layerNotFound
deriving DecidableEq, Repr

/-- Shallow embedding of `GradCAM.generateHeatmap` (`src/unnamed/part_000`,
lines 20-83).  `R` is the external bilinear resize to the model's input
resolution.  The layer activations multiplied with the pooled gradient
weights are read from `targetLayer.output.arraySync()`, i.e. from the
layer's symbolic output slot (`LayerH.symbolicOutput`), not from the
gradient pass on `preprocessedInput`. -/
def generateHeatmap (R : T3 → T3) (m : Option ModelH) (inputImage : T3)
    (layerName : String) (classIndex : Option Nat) : GCResult :=
  match m with
  | none => GCResult.modelUnavailable
  | some model =>
    let preprocessedInput := preprocessImage R inputImage
    let ci :=
      match classIndex with
      | none => argmaxIdx (model.predictOut preprocessedInput)
      | some c => c
    match getLayer model layerName with
    | none => GCResult.layerNotFound
    | some targetLayer =>
      let grads := model.gradAt layerName ci preprocessedInput
      let convOutputs := targetLayer.symbolicOutput
      let weights := meanHW grads
      GCResult.ok (normalizeHeatmap (heatmapOf weights convOutputs))

/-- Modelled from the spec's words, for comparison with the source: the
heatmap a single consistent pass would produce, combining the pooled
gradient weights with the forward-pass activation of the same layer on the
same preprocessed input. -/
def heatmapFromForwardPass (model : ModelH) (layerName : String)
    (preprocessedInput : T3) (classIndex : Nat) : List (List JSF) :=
  normalizeHeatmap
    (heatmapOf (meanHW (model.gradAt layerName classIndex preprocessedInput))
      (model.forwardAt layerName preprocessedInput))

end GradCAM

namespace IntegratedGradients

/-- Pixel normalization of `IntegratedGradients.preprocessImage`
(`IntegratedGradients.js`, lines 122-133): `v / 255`. -/
def igNormPix (v : ℚ) : ℚ := v / 255

/-- Embedding of `IntegratedGradients.preprocessImage`: the same bilinear resize to
224×224 as GradCAM's, then scale to `[0, 1]`. -/
def preprocessImage (R : T3 → T3) (img : T3) : T3 := t3map igNormPix (R img)

end IntegratedGradients

namespace FeatureVisualizer

/-- A layer as `FeatureVisualizer` consults it: name and `outputShape`
(whose last entry is the channel count for convolutional layers). -/
structure LayerF where
  name : String
  outputShape : List Nat
deriving DecidableEq, Repr

/-- The attached model: its layers and `tfModel.inputs[0].shape` (without
the batch entry, as the source slices it off). -/
structure ModelF where
  layers : List LayerF
  inputShape : List Nat
deriving DecidableEq, Repr

/-- Embedding of `this.tfModel.getLayer(layerName)` (also standing in for
`createActivationModel`, which returns null exactly when the model or the
layer is missing). -/
def getLayerF (m : ModelF) (layerName : String) : Option LayerF :=
  m.layers.find? (fun l => l.name == layerName)

/-- Height of a `[1, H, W, C]` tensor with the batch folded
(`tensor.shape[1]`). -/
def tHeight (t : T3) : Nat := t.length

/-- Width of such a tensor (`tensor.shape[2]`). -/
def tWidth (t : T3) : Nat := (t.headD []).length

/-- Minimum entry of a rank-3 tensor (`tensor.min()`). -/
def t3min (t : T3) : ℚ := listMinQ (t.flatten.flatten)

/-- Maximum entry of a rank-3 tensor (`tensor.max()`). -/
def t3max (t : T3) : ℚ := listMaxQ (t.flatten.flatten)

/-- One iteration's state of the optimization loop of `visualizeFilter`:
the trainable input, the best activation seen (`-Infinity` before the first
iteration, modelled as `none`), and the clone of the input at that peak
(`null` before the first update, modelled as `none`). -/
abbrev OptState := T3 × Option ℚ × Option T3

/-- One pass of the `for (let i = 0; i < iterations; i++)` body of
`visualizeFilter` (`IntegratedGradients.js` bundle, `FeatureVisualizer`,
lines 273-339): read activation and objective gradient, keep the best
iterate, then update the input by the RMS-normalized gradient scaled by
the learning rate.  `meanAct` is the recomputed mean filter activation,
`objGrad` the autodiff gradient of
`mean(activation[..., filterIndex]) - regularization * mean(x²)`, and
`sqrtQ` the engine's `tf.sqrt`. -/
def optStep (sqrtQ : ℚ → ℚ) (meanAct : T3 → ℚ) (objGrad : T3 → T3)
    (learningRate : ℚ) (st : OptState) : OptState :=
  let (inputVar, bestActivation, bestImage) := st
  let activation := meanAct inputVar
  let gradients := objGrad inputVar
  let better :=
    match bestActivation with
    | none => true
    | some b => decide (b < activation)
  let (bestA, bestImg) :=
    if better then (some activation, some inputVar) else (bestActivation, bestImage)
  let rms := sqrtQ (((t3map (fun v => v * v) gradients).flatten.flatten).sum /
      (gradients.flatten.flatten.length))
  let normalizedGradients := t3map (fun v => v / (rms + 1/100000)) gradients
  let inputVar2 :=
    List.zipWith (List.zipWith (List.zipWith (· + ·))) inputVar
      (t3map (fun v => v * learningRate) normalizedGradients)
  (inputVar2, bestA, bestImg)

/-- Shallow embedding of `FeatureVisualizer.visualizeFilter`
(`IntegratedGradients.js` bundle, lines 243-368).  `noise` is the
`tf.randomUniform([1, ...inputShape], -0.1, 0.1)` draw, `Rsz t h w` the
external bilinear resize to `[h, w]`, and the per-filter objective services
are indexed by `filterIndex`.  After the loop the best iterate, if any, is
resized to `height × width` when its shape differs and normalized to
`[0, 1]` by `(x - min) / (max - min + 1e-5)`; with `iterations = 0` the
loop never runs, `bestImage` stays null, and the function returns null. -/
def visualizeFilter (sqrtQ : ℚ → ℚ) (Rsz : T3 → Nat → Nat → T3)
    (m : Option ModelF) (layerName : String) (filterIndex : Nat)
    (meanAct : Nat → T3 → ℚ) (objGrad : Nat → T3 → T3) (noise : T3)
    (iterations : Nat) (learningRate : ℚ) (width height : Nat) : Option T3 :=
  match m with
  | none => none
  | some model =>
    match getLayerF model layerName with
    | none => none
    | some _ =>
      let final :=
        (List.range iterations).foldl
          (fun st _ => optStep sqrtQ (meanAct filterIndex) (objGrad filterIndex)
            learningRate st)
          (noise, none, none)
      match final.2.2 with
      | none => none
      | some bestImage =>
        let resized :=
          if tHeight bestImage == height && tWidth bestImage == width then bestImage
          else Rsz bestImage height width
        let minVal := t3min resized
        let maxVal := t3max resized
        some (t3map (fun v => (v - minVal) / (maxVal - minVal + 1/100000)) resized)

/-- Embedding of `tf.zeros([1, tileHeight, tileWidth, 3])`: the blank tile substituted
for a failed per-filter visualization and used to pad incomplete rows. -/
def blankTile (tileHeight tileWidth : Nat) : T3 :=
  List.replicate tileHeight (List.replicate tileWidth (List.replicate 3 (0 : ℚ)))

/-- The per-filter visualizations collected by `visualizeLayerFilters`
(lines 411-427): one entry per filter index below `filterCount`, in index
order, with a blank tile substituted when `visualizeFilter` returns null. -/
def filterTiles (sqrtQ : ℚ → ℚ) (Rsz : T3 → Nat → Nat → T3) (model : ModelF)
    (layerName : String) (meanAct : Nat → T3 → ℚ) (objGrad : Nat → T3 → T3)
    (noise : Nat → T3) (iterations : Nat) (learningRate : ℚ)
    (tileWidth tileHeight filterCount : Nat) : List T3 :=
  (List.range filterCount).map
    (fun i =>
      (visualizeFilter sqrtQ Rsz (some model) layerName i meanAct objGrad (noise i)
          iterations learningRate tileWidth tileHeight).getD
        (blankTile tileHeight tileWidth))

/-- One row of the grid (lines 437-450): the slice
`visualizations.slice(i*gridWidth, min((i+1)*gridWidth, length))`, padded
with blank tiles up to `gridWidth`. -/
def gridRow (visualizations : List T3) (gridWidth tileHeight tileWidth i : Nat) :
    List T3 :=
  let startIdx := i * gridWidth
  let endIdx := min ((i + 1) * gridWidth) visualizations.length
  let rowVis := (visualizations.drop startIdx).take (endIdx - startIdx)
  rowVis ++ List.replicate (gridWidth - rowVis.length) (blankTile tileHeight tileWidth)

/-- All grid rows, top to bottom. -/
def gridRows (visualizations : List T3) (gridHeight gridWidth tileHeight tileWidth : Nat) :
    List (List T3) :=
  (List.range gridHeight).map (gridRow visualizations gridWidth tileHeight tileWidth)

/-- Embedding of `tf.concat(rowVisualizations, 2)`: tiles of one row joined along the
width axis. -/
def hconcat (tiles : List T3) : T3 :=
  match tiles with
  | [] => []
  | t :: rest => rest.foldl (fun acc u => List.zipWith (· ++ ·) acc u) t

/-- Embedding of `tf.concat(rows, 1)`: rows stacked along the height axis. -/
def vconcat (rows : List T3) : T3 := rows.flatten

/-- Shallow embedding of `FeatureVisualizer.visualizeLayerFilters`
(lines 376-464): cap the filter count by the layer's last output-shape
entry, run `visualizeFilter` per index, substitute blank tiles for
failures, then assemble `ceil(filterCount / gridWidth)` rows of `gridWidth`
tiles each. -/
def visualizeLayerFilters (sqrtQ : ℚ → ℚ) (Rsz : T3 → Nat → Nat → T3)
    (m : Option ModelF) (layerName : String)
    (meanAct : Nat → T3 → ℚ) (objGrad : Nat → T3 → T3) (noise : Nat → T3)
    (iterations : Nat) (learningRate : ℚ)
    (numFilters gridWidth tileWidth tileHeight : Nat) : Option T3 :=
  match m with
  | none => none
  | some model =>
    match getLayerF model layerName with
    | none => none
    | some layer =>
      let filterCount := min numFilters (layer.outputShape.getLastD 0)
      let gridHeight := (filterCount + gridWidth - 1) / gridWidth
      let visualizations := filterTiles sqrtQ Rsz model layerName meanAct objGrad noise
        iterations learningRate tileWidth tileHeight filterCount
      if visualizations.isEmpty then none
      else some (vconcat ((gridRows visualizations gridHeight gridWidth tileHeight
        tileWidth).map hconcat))

end FeatureVisualizer

namespace FilterVisualizer

/-- A convolutional kernel tensor of shape `[kH, kW, inC, outC]`
(`weights.shape`), its data indexed `[y][x][c][f]`. -/
structure KernelT where
  kH : Nat
  kW : Nat
  inC : Nat
  outC : Nat
  data : List (List (List (List ℚ)))
deriving DecidableEq, Repr

/-- The `[kH, kW]` map of filter `i`: the channel-`i` slice
`weights.slice([0,0,0,i], [kH,kW,inC,1])`, collapsed by `mean(2)` across
input channels when `inC > 1`, else by `squeeze(2)`
(`src/README.md` embedded source, `visualizeFilters`, lines 297-368). -/
def filterMeanMap (k : KernelT) (i : Nat) : Map2 :=
  k.data.map
    (fun row => row.map
      (fun cell =>
        if 1 < k.inC then (cell.map (fun chans => chans.getD i 0)).sum / k.inC
        else (cell.headD []).getD i 0))

/-- Per-filter normalization to `[0, 1]`:
`(v - min) / (max - min + 1e-5)`. -/
def normalizeMap (m : Map2) : Map2 :=
  let minVal := listMinQ (flat2 m)
  let maxVal := listMaxQ (flat2 m)
  m.map (·.map (fun v => (v - minVal) / (maxVal - minVal + 1/100000)))

/-- Grayscale-as-RGB replication (`tf.stack([resized, resized, resized], 2)`). -/
def toRGB (m : Map2) : T3 := m.map (·.map (fun v => [v, v, v]))

/-- One filter's display tile: normalize, upsample via the external
bilinear resize `Rsz` to `size × size`, replicate to three channels. -/
def processFilter (Rsz : Map2 → Nat → Map2) (k : KernelT) (size i : Nat) : T3 :=
  toRGB (Rsz (normalizeMap (filterMeanMap k i)) size)

/-- Shallow embedding of `FilterVisualizer.visualizeFilters`: null when the
layer yielded no weight tensor, else one tile for each of the first
`min(shape[3], maxFilters)` output channels, in channel order. -/
def visualizeFilters (Rsz : Map2 → Nat → Map2) (weights : Option KernelT)
    (maxFilters size : Nat) : Option (List T3) :=
  match weights with
  | none => none
  | some k =>
    let numFilters := min k.outC maxFilters
    some ((List.range numFilters).map (processFilter Rsz k size))

end FilterVisualizer

namespace PredictionHelper

/-- A probability paired with its original class index, as built by
`probabilities.map((p, i) => ({probability: p, index: i}))`
(`src/unnamed/part_003`, `getTopKClasses`, lines 435-450). -/
structure ScoredClass where
  probability : ℚ
  index : Nat
deriving DecidableEq, Repr

/-- The enumeration step of `getTopKClasses`: each probability with its
position. -/
def enumScores (probabilities : List ℚ) : List ScoredClass :=
  (List.range probabilities.length).map (fun i => ⟨probabilities.getD i 0, i⟩)

/-- Insertion of one element into an already-ranked prefix, exactly as a
stable sort with comparator `(a, b) => b.probability - a.probability`
places it: after every earlier element whose probability is at least as
large.  JavaScript's `Array.prototype.sort` is stable, and a stable sort's
output under a fixed comparator is unique, so this insertion sort computes
the same list as the engine's sort. -/
def insertDesc (x : ScoredClass) : List ScoredClass → List ScoredClass
  | [] => [x]
  | y :: ys => if y.probability < x.probability then x :: y :: ys else y :: insertDesc x ys

/-- The stable descending sort of `getTopKClasses`. -/
def jsSortDesc (l : List ScoredClass) : List ScoredClass :=
  l.foldl (fun acc x => insertDesc x acc) []

/-- One ranked prediction entry. -/
structure PredEntry where
  className : String
  probability : ℚ
  index : Nat
deriving DecidableEq, Repr

/-- Shallow embedding of `PredictionHelper.getTopKClasses`: enumerate,
stable-sort by probability descending, keep the first `k`, attach class
names (with the `Class {index}` fallback when the dictionary misses). -/
def getTopKClasses (dict : Nat → Option String) (probabilities : List ℚ) (k : Nat) :
    List PredEntry :=
  let indices := (jsSortDesc (enumScores probabilities)).take k
  indices.map
    (fun s =>
      { className := (dict s.index).getD ("Class " ++ toString s.index)
        probability := s.probability
        index := s.index })

/-- Pixel normalization dispatch of `PredictionHelper.preprocessImage`
(lines 350-376): `v/127.5 - 1` for MobileNet-family models,
`(v/255 - 0.5) * 2` for Inception-family, else `v/255`; the family check is
`modelType.includes(...)`, modelled by `splitOn` producing more than one
piece. -/
def phNormPix (modelType : String) (v : ℚ) : ℚ :=
  if (modelType.splitOn "mobilenet").length != 1 then v / (255/2) - 1
  else if (modelType.splitOn "inception").length != 1 then (v / 255 - 1/2) * 2
  else v / 255

/-- Embedding of `PredictionHelper.preprocessImage`: resize to 224×224 (external op
`R`), add the batch axis (folded), normalize by model family. -/
def preprocessImage (R : T3 → T3) (modelType : String) (img : T3) : T3 :=
  t3map (phNormPix modelType) (R img)

/-- The record `predict` returns. -/
structure PredictResult where
  topPredictions : List PredEntry
  rawProbabilities : List ℚ
  topPrediction : Option PredEntry
deriving DecidableEq, Repr

/-- Shallow embedding of `PredictionHelper.predict` (lines 393-427):
throws when no model is attached, otherwise preprocesses, runs the model
(`predictFn`), ranks the top 5 classes and returns them together with the
raw probabilities; `topPrediction` is `topK[0]`. -/
def predict (predictFn : Option (T3 → List ℚ)) (R : T3 → T3) (modelType : String)
    (dict : Nat → Option String) (image : T3) : Except String PredictResult :=
  match predictFn with
  | none => Except.error "TensorFlow.js model not available"
  | some f =>
    let preprocessed := preprocessImage R modelType image
    let probabilities := f preprocessed
    let topK := getTopKClasses dict probabilities 5
    Except.ok { topPredictions := topK, rawProbabilities := probabilities,
                topPrediction := topK.head? }

end PredictionHelper


/-! ### Concrete fixtures

Small concrete instantiations of the opaque engine services, used to
evaluate the embeddings at specific inputs. -/

namespace GradCAM

/-- A model whose gradient pass yields unit gradients and whose target
layer's symbolic output slot holds the 1×2×1 values `[1, 3]`: the
pre-normalization heatmap is `[[1, 3]]` (minimum 1, maximum 3). -/
def gcModelA : ModelH :=
  { layers := [{ name := "conv", symbolicOutput := [[[1], [3]]] }]
    predictOut := fun _ => []
    gradAt := fun _ _ _ => [[[1], [1]]]
    forwardAt := fun _ _ => [[[1], [3]]] }

/-- A model whose pre-normalization heatmap is the constant `[[2, 2]]`
(minimum equals maximum). -/
def gcModelB : ModelH :=
  { layers := [{ name := "conv", symbolicOutput := [[[2], [2]]] }]
    predictOut := fun _ => []
    gradAt := fun _ _ _ => [[[1], [1]]]
    forwardAt := fun _ _ => [[[2], [2]]] }

/-- A model whose target layer's symbolic output slot (`[1, 3]`) differs
from the layer's forward-pass activation on every input (`[5, 6]`). -/
def gcModelC : ModelH :=
  { layers := [{ name := "conv", symbolicOutput := [[[1], [3]]] }]
    predictOut := fun _ => []
    gradAt := fun _ _ _ => [[[1], [1]]]
    forwardAt := fun _ _ => [[[5], [6]]] }

/-- A model with no layers at all. -/
def gcModelEmpty : ModelH :=
  { layers := []
    predictOut := fun _ => []
    gradAt := fun _ _ _ => []
    forwardAt := fun _ _ => [] }

end GradCAM

namespace FeatureVisualizer

/-- A model holding one convolutional layer with 8 output channels. -/
def fvModel : ModelF :=
  { layers := [{ name := "conv_1", outputShape := [1, 14, 14, 8] }]
    inputShape := [224, 224, 3] }

/-- A model holding one layer with 10 output channels, for the 10-filter
grid instance. -/
def fvModel10 : ModelF :=
  { layers := [{ name := "conv_2", outputShape := [1, 7, 7, 10] }]
    inputShape := [224, 224, 3] }

end FeatureVisualizer

namespace FilterVisualizer

/-- A concrete convolutional kernel of shape `[3, 3, 3, 8]` with entry
`y + x + c + f` at index `[y][x][c][f]`. -/
def kernel338 : KernelT :=
  { kH := 3, kW := 3, inC := 3, outC := 8
    data :=
      (List.range 3).map (fun y =>
        (List.range 3).map (fun x =>
          (List.range 3).map (fun c =>
            (List.range 8).map (fun f => ((y + x + c + f : Nat) : ℚ))))) }

end FilterVisualizer

namespace PredictionHelper

/-- The strict ranking order the claimed contract induces on scored
classes: higher probability first, ties by ascending original index. -/
def rankLT (a b : ScoredClass) : Prop :=
  b.probability < a.probability ∨ (a.probability = b.probability ∧ a.index < b.index)

end PredictionHelper

end WhyteBox

/-! ### Helper lemmas -/

namespace WhyteBox

namespace PredictionHelper

theorem mem_insertDesc {z x : ScoredClass} {l : List ScoredClass}
    (h : z ∈ insertDesc x l) : z = x ∨ z ∈ l := by
  induction l with
  | nil => simpa [insertDesc] using h
  | cons y ys ih =>
    rw [insertDesc] at h
    split at h
    · rcases List.mem_cons.mp h with rfl | h
      · exact Or.inl rfl
      · exact Or.inr h
    · rcases List.mem_cons.mp h with rfl | h
      · exact Or.inr (List.mem_cons_self _ _)
      · rcases ih h with h | h
        · exact Or.inl h
        · exact Or.inr (List.mem_cons_of_mem _ h)

theorem rank_prob_le {a b : ScoredClass} (h : rankLT a b) :
    b.probability ≤ a.probability := by
  rcases h with h | ⟨h, _⟩
  · exact le_of_lt h
  · exact le_of_eq h.symm

theorem pairwise_insertDesc {x : ScoredClass} {l : List ScoredClass}
    (hl : l.Pairwise rankLT) (hidx : ∀ y ∈ l, y.index < x.index) :
    (insertDesc x l).Pairwise rankLT := by
  induction l with
  | nil => simp [insertDesc]
  | cons y ys ih =>
    rw [insertDesc]
    rcases List.pairwise_cons.mp hl with ⟨hy, hys⟩
    by_cases hc : y.probability < x.probability
    · rw [if_pos hc]
      refine List.Pairwise.cons ?_ hl
      intro z hz
      rcases List.mem_cons.mp hz with rfl | hz
      · exact Or.inl hc
      · exact Or.inl (lt_of_le_of_lt (rank_prob_le (hy z hz)) hc)
    · rw [if_neg hc]
      refine List.Pairwise.cons ?_ (ih hys (fun a ha => hidx a (List.mem_cons_of_mem _ ha)))
      intro z hz
      rcases mem_insertDesc hz with rfl | hz
      · rcases lt_or_eq_of_le (not_lt.mp hc) with h | h
        · exact Or.inl h
        · exact Or.inr ⟨h.symm, hidx y (List.mem_cons_self _ _)⟩
      · exact hy z hz

theorem pairwise_foldl_insertDesc :
    ∀ (l acc : List ScoredClass), acc.Pairwise rankLT →
      (∀ a ∈ acc, ∀ b ∈ l, a.index < b.index) →
      l.Pairwise (fun a b => a.index < b.index) →
      (l.foldl (fun acc x => insertDesc x acc) acc).Pairwise rankLT := by
  intro l
  induction l with
  | nil => intro acc h _ _; simpa using h
  | cons x xs ih =>
    intro acc hacc hcross hl
    rcases List.pairwise_cons.mp hl with ⟨hx, hxs⟩
    simp only [List.foldl_cons]
    apply ih
    · exact pairwise_insertDesc hacc (fun y hy => hcross y hy x (List.mem_cons_self _ _))
    · intro a ha b hb
      rcases mem_insertDesc ha with rfl | ha
      · exact hx b hb
      · exact hcross a ha b (List.mem_cons_of_mem _ hb)
    · exact hxs

theorem enumScores_pairwise (probabilities : List ℚ) :
    (enumScores probabilities).Pairwise (fun a b => a.index < b.index) := by
  unfold enumScores
  rw [List.pairwise_map]
  simpa using List.pairwise_lt_range probabilities.length

theorem jsSortDesc_pairwise (probabilities : List ℚ) :
    (jsSortDesc (enumScores probabilities)).Pairwise rankLT :=
  pairwise_foldl_insertDesc _ [] (by simp) (by simp) (enumScores_pairwise probabilities)

end PredictionHelper

namespace FeatureVisualizer

theorem gridRow_length (vis : List T3) (gw th tw i : Nat) (hgw : 0 < gw) :
    (gridRow vis gw th tw i).length = gw := by
  have h1 : ((vis.drop (i * gw)).take (min ((i + 1) * gw) vis.length - i * gw)).length ≤ gw := by
    simp only [List.length_take, List.length_drop]
    have : (i + 1) * gw = i * gw + gw := by ring
    omega
  simp only [gridRow, List.length_append, List.length_replicate]
  omega

theorem gridRow_entry_lt (vis : List T3) (gw th tw i j : Nat) (hj : j < gw)
    (hrange : i * gw + j < vis.length) :
    (gridRow vis gw th tw i).getD j (blankTile th tw) =
      vis.getD (i * gw + j) (blankTile th tw) := by
  simp only [gridRow]
  have hlen : ((vis.drop (i * gw)).take (min ((i + 1) * gw) vis.length - i * gw)).length =
      min (min ((i + 1) * gw) vis.length - i * gw) (vis.length - i * gw) := by
    simp [List.length_take, List.length_drop]
  have hjlt : j < ((vis.drop (i * gw)).take (min ((i + 1) * gw) vis.length - i * gw)).length := by
    rw [hlen]
    have : (i + 1) * gw = i * gw + gw := by ring
    omega
  rw [List.getD_append _ _ _ _ hjlt]
  have h2 : j < min ((i + 1) * gw) vis.length - i * gw := by
    have : (i + 1) * gw = i * gw + gw := by ring
    omega
  simp only [List.getD_eq_getElem?_getD]
  rw [List.getElem?_take, if_pos h2]
  rw [List.getElem?_drop]

theorem gridRow_entry_pad (vis : List T3) (gw th tw i j : Nat)
    (hge : vis.length ≤ i * gw + j) :
    (gridRow vis gw th tw i).getD j (blankTile th tw) = blankTile th tw := by
  simp only [gridRow]
  have hlen : ((vis.drop (i * gw)).take (min ((i + 1) * gw) vis.length - i * gw)).length ≤
      vis.length - i * gw := by
    simp only [List.length_take, List.length_drop]
    omega
  have hjge : ((vis.drop (i * gw)).take (min ((i + 1) * gw) vis.length - i * gw)).length ≤ j := by
    omega
  rw [List.getD_append_right _ _ _ _ hjge]
  simp only [List.getD_eq_getElem?_getD, List.getElem?_replicate]
  split
  · rfl
  · rfl

theorem gridRows_length (vis : List T3) (gh gw th tw : Nat) :
    (gridRows vis gh gw th tw).length = gh := by
  simp [gridRows]

theorem gridRows_getD (vis : List T3) (gh gw th tw i : Nat) (hi : i < gh) :
    (gridRows vis gh gw th tw).getD i [] = gridRow vis gw th tw i := by
  simp only [gridRows, List.getD_eq_getElem?_getD, List.getElem?_map, List.getElem?_range hi]
  rfl

theorem filterTiles_length (sqrtQ : ℚ → ℚ) (Rsz : T3 → Nat → Nat → T3) (model : ModelF)
    (layerName : String) (meanAct : Nat → T3 → ℚ) (objGrad : Nat → T3 → T3)
    (noise : Nat → T3) (iterations : Nat) (learningRate : ℚ)
    (tileWidth tileHeight filterCount : Nat) :
    (filterTiles sqrtQ Rsz model layerName meanAct objGrad noise iterations learningRate
      tileWidth tileHeight filterCount).length = filterCount := by
  simp [filterTiles]

theorem filterTiles_getD (sqrtQ : ℚ → ℚ) (Rsz : T3 → Nat → Nat → T3) (model : ModelF)
    (layerName : String) (meanAct : Nat → T3 → ℚ) (objGrad : Nat → T3 → T3)
    (noise : Nat → T3) (iterations : Nat) (learningRate : ℚ)
    (tileWidth tileHeight filterCount k : Nat) (hk : k < filterCount) :
    (filterTiles sqrtQ Rsz model layerName meanAct objGrad noise iterations learningRate
        tileWidth tileHeight filterCount).getD k (blankTile tileHeight tileWidth) =
      (visualizeFilter sqrtQ Rsz (some model) layerName k meanAct objGrad (noise k)
          iterations learningRate tileWidth tileHeight).getD
        (blankTile tileHeight tileWidth) := by
  simp only [filterTiles, List.getD_eq_getElem?_getD, List.getElem?_map,
    List.getElem?_range hk]
  rfl

end FeatureVisualizer

theorem t3map_ne_of_pointwise_ne {f g : ℚ → ℚ} {t : T3}
    (h : ∃ row ∈ t, ∃ cell ∈ row, ∃ v ∈ cell, f v ≠ g v) : t3map f t ≠ t3map g t := by
  rcases h with ⟨row, hrow, cell, hcell, v, hv, hne⟩
  intro he
  unfold t3map at he
  rw [List.map_inj_left] at he
  have h1 := he row hrow
  rw [List.map_inj_left] at h1
  have h2 := h1 cell hcell
  rw [List.map_inj_left] at h2
  exact hne (h2 v hv)

end WhyteBox

/-! ### Claim theorems -/

namespace WhyteBox

/-- C1: the claim states that a successful `generateHeatmap` returns a map
normalized to `[0, 1]` via `(heatmap - min) / (max - min + 1e-5)`, with
every value in `[0, 1]` even on a constant map.  The source instead
computes `heatmap / (max - min)` with no epsilon and no minimum
subtraction: on a 1×2 heatmap `[1, 3]` the returned values are
`[1/2, 3/2]`, and `3/2` is outside `[0, 1]`; on the constant heatmap
`[2, 2]` the division is by zero and every returned value is `Infinity`. -/
theorem claim_C1_gradcam_normalization_bug :
    GradCAM.generateHeatmap id (some GradCAM.gcModelA) [] "conv" (some 0) =
      GradCAM.GCResult.ok [[JSF.num (1/2), JSF.num (3/2)]] ∧
    inUnit (JSF.num (3/2)) = false ∧
    GradCAM.generateHeatmap id (some GradCAM.gcModelB) [] "conv" (some 0) =
      GradCAM.GCResult.ok [[JSF.inf, JSF.inf]] ∧
    inUnit JSF.inf = false := by
  refine ⟨?_, by norm_num [inUnit], ?_, rfl⟩
  · norm_num [GradCAM.generateHeatmap, GradCAM.gcModelA, GradCAM.getLayer,
      GradCAM.preprocessImage, t3map, GradCAM.meanHW, GradCAM.heatmapOf,
      GradCAM.normalizeHeatmap, flat2, listMaxQ, listMinQ, jsDivQ,
      List.find?, List.range_succ]
  · norm_num [GradCAM.generateHeatmap, GradCAM.gcModelB, GradCAM.getLayer,
      GradCAM.preprocessImage, t3map, GradCAM.meanHW, GradCAM.heatmapOf,
      GradCAM.normalizeHeatmap, flat2, listMaxQ, listMinQ, jsDivQ,
      List.find?, List.range_succ]

/-- C2: the claim states that the layer activations multiplied with the
pooled gradient weights come from the same forward pass that produced the
gradients.  The source reads them through `targetLayer.output.arraySync()`,
the layer's symbolic graph tensor, which is not a product of that pass: on
a model whose symbolic slot holds `[1, 3]` while the layer's forward-pass
activation on the (identical) preprocessed input is `[5, 6]`, the returned
heatmap is built from `[1, 3]` and differs from the heatmap a single
consistent pass would produce. -/
theorem claim_C2_gradcam_stale_activations :
    GradCAM.generateHeatmap id (some GradCAM.gcModelC) [] "conv" (some 0) =
      GradCAM.GCResult.ok [[JSF.num (1/2), JSF.num (3/2)]] ∧
    GradCAM.heatmapFromForwardPass GradCAM.gcModelC "conv"
      (GradCAM.preprocessImage id []) 0 = [[JSF.num 5, JSF.num 6]] ∧
    ([[JSF.num (1/2), JSF.num (3/2)]] : List (List JSF)) ≠ [[JSF.num 5, JSF.num 6]] := by
  refine ⟨?_, ?_, by norm_num⟩
  · norm_num [GradCAM.generateHeatmap, GradCAM.gcModelC, GradCAM.getLayer,
      GradCAM.preprocessImage, t3map, GradCAM.meanHW, GradCAM.heatmapOf,
      GradCAM.normalizeHeatmap, flat2, listMaxQ, listMinQ, jsDivQ,
      List.find?, List.range_succ]
  · norm_num [GradCAM.heatmapFromForwardPass, GradCAM.gcModelC,
      GradCAM.preprocessImage, t3map, GradCAM.meanHW, GradCAM.heatmapOf,
      GradCAM.normalizeHeatmap, flat2, listMaxQ, listMinQ, jsDivQ, List.range_succ]

/-- C3: the claim states that `integratedGradients` with `steps = 0`
returns exactly `(input - baseline) * gradient_at_input`, well-defined and
free of NaN/Infinity.  In the source the step size is
`(input - baseline) / steps` and the loop factor is `i / steps`, so with
`steps = 0` the single sample is evaluated at a NaN input: on the model
with gradient `2x`, input `[1]` and baseline `[0]`, the code returns
`[NaN]` while the claimed value is `[2]`. -/
theorem claim_C3_ig_zero_steps_nan :
    IntegratedGradients.integratedGradients IntegratedGradients.sqGrad
      [[JSF.num 1]] [[JSF.num 0]] 0 0 = [JSF.nan] ∧
    sumAbsChannels (tMulT (tSub [[JSF.num 1]] [[JSF.num 0]])
      (IntegratedGradients.sqGrad 0 [[JSF.num 1]])) = [JSF.num 2] ∧
    ([JSF.nan] : List JSF) ≠ [JSF.num 2] := by
  refine ⟨?_, ?_, by simp⟩
  · norm_num [IntegratedGradients.integratedGradients, IntegratedGradients.sqGrad,
      List.range_succ, tDivS, tSub, tAdd, tMulT, tMulS, tZip, tZerosLike, sumAbsChannels,
      JSF.div, JSF.mul, JSF.add, JSF.sub, JSF.neg, JSF.abs]
  · norm_num [IntegratedGradients.sqGrad, tSub, tMulT, tMulS, tZip, sumAbsChannels,
      JSF.mul, JSF.add, JSF.sub, JSF.neg, JSF.abs]

/-- C6: the claim states that for `steps ≥ 1` the gradients are taken at
`x_i = baseline + (i/steps) * (input - baseline)`.  The source multiplies
the already-divided `delta = (input - baseline)/steps` by `i/steps` again,
sampling at `baseline + (i/steps²) * (input - baseline)`: with `steps = 2`,
gradient `2x`, input `[1]`, baseline `[0]`, the code returns `[1/2]` where
the claimed interpolation yields `[1]` (the divide-by-`steps+1`,
multiply-by-difference and channel-abs-sum parts do match, as
`specIntegratedGradients` differs from the embedding only in the
interpolation factor). -/
theorem claim_C6_ig_interpolation_bug :
    IntegratedGradients.integratedGradients IntegratedGradients.sqGrad
      [[JSF.num 1]] [[JSF.num 0]] 0 2 = [JSF.num (1/2)] ∧
    IntegratedGradients.specIntegratedGradients IntegratedGradients.sqGrad
      [[JSF.num 1]] [[JSF.num 0]] 0 2 = [JSF.num 1] ∧
    ([JSF.num ((1:ℚ)/2)] : List JSF) ≠ [JSF.num 1] := by
  refine ⟨?_, ?_, by norm_num⟩
  · norm_num [IntegratedGradients.integratedGradients, IntegratedGradients.sqGrad,
      List.range_succ, tDivS, tSub, tAdd, tMulT, tMulS, tZip, tZerosLike, sumAbsChannels,
      JSF.div, JSF.mul, JSF.add, JSF.sub, JSF.neg, JSF.abs]
  · norm_num [IntegratedGradients.specIntegratedGradients, IntegratedGradients.sqGrad,
      List.range_succ, tDivS, tSub, tAdd, tMulT, tMulS, tZip, tZerosLike, sumAbsChannels,
      JSF.div, JSF.mul, JSF.add, JSF.sub, JSF.neg, JSF.abs]

/-- C5: `generateHeatmap` reports a missing-model failure when no model is
attached and a missing-layer failure when the layer name does not resolve,
and neither failure carries a heatmap. -/
theorem claim_C5_gradcam_failure_paths :
    (∀ (R : T3 → T3) (img : T3) (layerName : String) (ci : Option Nat),
      GradCAM.generateHeatmap R none img layerName ci =
        GradCAM.GCResult.modelUnavailable) ∧
    (∀ (R : T3 → T3) (m : GradCAM.ModelH) (img : T3) (layerName : String)
        (ci : Option Nat), GradCAM.getLayer m layerName = none →
      GradCAM.generateHeatmap R (some m) img layerName ci =
        GradCAM.GCResult.layerNotFound) ∧
    (∀ hm, GradCAM.GCResult.modelUnavailable ≠ GradCAM.GCResult.ok hm) ∧
    (∀ hm, GradCAM.GCResult.layerNotFound ≠ GradCAM.GCResult.ok hm) := by
  refine ⟨fun _ _ _ _ => rfl, ?_, fun _ => by simp, fun _ => by simp⟩
  intro R m img layerName ci h
  simp [GradCAM.generateHeatmap, h]

/-- Witness for C5: on the model with no layers, the layer "missing" does
not resolve and the embedding returns the missing-layer failure. -/
theorem claim_C5_gradcam_failure_paths_witness :
    GradCAM.getLayer GradCAM.gcModelEmpty "missing" = none ∧
    GradCAM.generateHeatmap id (some GradCAM.gcModelEmpty) [] "missing" none =
      GradCAM.GCResult.layerNotFound :=
  ⟨rfl, claim_C5_gradcam_failure_paths.2.1 id GradCAM.gcModelEmpty [] "missing" none rfl⟩

end WhyteBox

namespace WhyteBox

/-- C10: GradCAM's preprocessing maps a pixel value `v` to
`(v - 127.5)/127.5` while Integrated Gradients' maps it to `v/255`, after
the same bilinear resize; the two agree only at `v = 255`, so any resized
image containing a pixel other than 255 is fed to the model as two
different tensors by the two attribution methods. -/
theorem claim_C10_preprocessing_divergence :
    (∀ v : ℚ, GradCAM.gcNormPix v = IntegratedGradients.igNormPix v ↔ v = 255) ∧
    (∀ (R : T3 → T3) (img : T3),
      (∃ row ∈ R img, ∃ cell ∈ row, ∃ v ∈ cell, v ≠ 255) →
      GradCAM.preprocessImage R img ≠ IntegratedGradients.preprocessImage R img) := by
  have hiff : ∀ v : ℚ, GradCAM.gcNormPix v = IntegratedGradients.igNormPix v ↔ v = 255 := by
    intro v
    unfold GradCAM.gcNormPix IntegratedGradients.igNormPix
    rw [div_eq_div_iff (by norm_num) (by norm_num)]
    constructor <;> intro h <;> linarith
  refine ⟨hiff, ?_⟩
  rintro R img ⟨row, hrow, cell, hcell, v, hv, hne⟩
  unfold GradCAM.preprocessImage IntegratedGradients.preprocessImage
  exact t3map_ne_of_pointwise_ne ⟨row, hrow, cell, hcell, v, hv,
    fun h => hne ((hiff v).mp h)⟩

/-- Witness for C10: a black 1×1×1 image (pixel value 0) is preprocessed
differently by the two methods. -/
theorem claim_C10_preprocessing_divergence_witness :
    (∃ row ∈ (id [[[(0:ℚ)]]] : T3), ∃ cell ∈ row, ∃ v ∈ cell, v ≠ 255) ∧
    GradCAM.preprocessImage id [[[(0:ℚ)]]] ≠
      IntegratedGradients.preprocessImage id [[[(0:ℚ)]]] := by
  have h : ∃ row ∈ (id [[[(0:ℚ)]]] : T3), ∃ cell ∈ row, ∃ v ∈ cell, v ≠ 255 :=
    ⟨[[0]], by simp, [0], by simp, 0, by simp, by norm_num⟩
  exact ⟨h, claim_C10_preprocessing_divergence.2 id [[[(0:ℚ)]]] h⟩

/-- C4: the claim states that `visualizeFilter` with `iterations = 0` on an
existing layer returns the normalized initial noise image.  In the source
the best-iterate tracking lives inside the loop body, so with zero
iterations `bestImage` remains null and the function returns null for
every choice of model services, noise and sizes. -/
theorem claim_C4_feature_synth_zero_iterations :
    ∀ (sqrtQ : ℚ → ℚ) (Rsz : T3 → Nat → Nat → T3) (m : FeatureVisualizer.ModelF)
      (layerName : String) (filterIndex : Nat) (meanAct : Nat → T3 → ℚ)
      (objGrad : Nat → T3 → T3) (noise : T3) (lr : ℚ) (width height : Nat)
      (layer : FeatureVisualizer.LayerF),
      FeatureVisualizer.getLayerF m layerName = some layer →
      FeatureVisualizer.visualizeFilter sqrtQ Rsz (some m) layerName filterIndex
        meanAct objGrad noise 0 lr width height = none := by
  intro sqrtQ Rsz m layerName filterIndex meanAct objGrad noise lr width height layer h
  simp [FeatureVisualizer.visualizeFilter, h]

/-- Witness for C4: with the one-convolution model, resolving layer
"conv_1" and running zero iterations yields null. -/
theorem claim_C4_feature_synth_zero_iterations_witness :
    FeatureVisualizer.getLayerF FeatureVisualizer.fvModel "conv_1" =
      some { name := "conv_1", outputShape := [1, 14, 14, 8] } ∧
    FeatureVisualizer.visualizeFilter (fun q => q) (fun t _ _ => t)
      (some FeatureVisualizer.fvModel) "conv_1" 0 (fun _ _ => 0) (fun _ _ => [])
      [] 0 1 224 224 = none :=
  ⟨rfl, claim_C4_feature_synth_zero_iterations (fun q => q) (fun t _ _ => t)
    FeatureVisualizer.fvModel "conv_1" 0 (fun _ _ => 0) (fun _ _ => []) [] 1 224 224
    { name := "conv_1", outputShape := [1, 14, 14, 8] } rfl⟩

/-- C9: `visualizeFilters` produces one tile per output channel for exactly
the first `min(outC, maxFilters)` channels of the kernel, in channel
order; in particular a `[3, 3, 3, 8]` kernel with `maxFilters = 16` yields
exactly 8 tiles, never padded up to 16. -/
theorem claim_C9_filter_count_cap :
    (∀ (Rsz : Map2 → Nat → Map2) (k : FilterVisualizer.KernelT) (maxFilters size : Nat),
      FilterVisualizer.visualizeFilters Rsz (some k) maxFilters size =
        some ((List.range (min k.outC maxFilters)).map
          (FilterVisualizer.processFilter Rsz k size))) ∧
    (∀ (Rsz : Map2 → Nat → Map2) (k : FilterVisualizer.KernelT) (maxFilters size : Nat),
      ((FilterVisualizer.visualizeFilters Rsz (some k) maxFilters size).getD []).length =
        min k.outC maxFilters) ∧
    (∀ (Rsz : Map2 → Nat → Map2) (size : Nat),
      ((FilterVisualizer.visualizeFilters Rsz (some FilterVisualizer.kernel338) 16
          size).getD []).length = 8) ∧
    (∀ (Rsz : Map2 → Nat → Map2) (size : Nat),
      FilterVisualizer.visualizeFilters Rsz (some FilterVisualizer.kernel338) 16 size ≠
        none) := by
  refine ⟨fun _ _ _ _ => rfl, ?_, ?_, ?_⟩
  · intro Rsz k maxFilters size
    simp [FilterVisualizer.visualizeFilters]
  · intro Rsz size
    simp [FilterVisualizer.visualizeFilters, FilterVisualizer.kernel338]
  · intro Rsz size
    simp [FilterVisualizer.visualizeFilters]

end WhyteBox

namespace WhyteBox

/-- C8: `getTopKClasses` ranks by probability descending, ties broken by
ascending original index (the engine's sort is stable and its comparator
only reads probabilities, so the stable insertion order in the embedding
is exact); `predict` sets `topPrediction` to element 0 of the ranked list;
and on raw probabilities `[0.1, 0.7, 0.2]` the ranked indices are
`[1, 2, 0]` with top index 1. -/
theorem claim_C8_prediction_ranking :
    (∀ (dict : Nat → Option String) (probabilities : List ℚ) (k : Nat),
      (PredictionHelper.getTopKClasses dict probabilities k).Pairwise
        (fun a b => b.probability < a.probability ∨
          (a.probability = b.probability ∧ a.index < b.index))) ∧
    (∀ (f : T3 → List ℚ) (R : T3 → T3) (modelType : String)
        (dict : Nat → Option String) (image : T3),
      (PredictionHelper.predict (some f) R modelType dict image).map
          (fun r => r.topPrediction) =
        (PredictionHelper.predict (some f) R modelType dict image).map
          (fun r => r.topPredictions.head?)) ∧
    ((PredictionHelper.getTopKClasses (fun _ => none) [1/10, 7/10, 2/10] 5).map
        (fun e => e.index) = [1, 2, 0]) ∧
    ((PredictionHelper.getTopKClasses (fun _ => none) [1/10, 7/10, 2/10] 5).head?.map
        (fun e => e.index) = some 1) := by
  refine ⟨?_, fun _ _ _ _ _ => rfl, ?_, ?_⟩
  · intro dict probabilities k
    unfold PredictionHelper.getTopKClasses
    rw [List.pairwise_map]
    have hp := List.Pairwise.sublist (List.take_sublist k _)
      (PredictionHelper.jsSortDesc_pairwise probabilities)
    exact hp.imp (fun h => h)
  · norm_num [PredictionHelper.getTopKClasses, PredictionHelper.jsSortDesc,
      PredictionHelper.enumScores, PredictionHelper.insertDesc, List.range_succ]
  · norm_num [PredictionHelper.getTopKClasses, PredictionHelper.jsSortDesc,
      PredictionHelper.enumScores, PredictionHelper.insertDesc, List.range_succ]

end WhyteBox

namespace WhyteBox

/-- C7: with `numFilters = 10`, `gridWidth = 4` and a layer holding at
least 10 channels, `visualizeLayerFilters` assembles the grid from exactly
`ceil(10/4) = 3` rows of 4 tiles each; tiles appear in row-major filter
order, any per-filter failure contributes a blank (all-zero) tile, and the
last row's final two positions are blank padding. -/
theorem claim_C7_grid_assembly (sqrtQ : ℚ → ℚ) (Rsz : T3 → Nat → Nat → T3)
    (m : FeatureVisualizer.ModelF) (layerName : String)
    (meanAct : Nat → T3 → ℚ) (objGrad : Nat → T3 → T3) (noise : Nat → T3)
    (iterations : Nat) (lr : ℚ) (tw th : Nat) (layer : FeatureVisualizer.LayerF)
    (c : Nat) (hl : FeatureVisualizer.getLayerF m layerName = some layer)
    (hc : layer.outputShape.getLastD 0 = c) (h10 : 10 ≤ c) :
    FeatureVisualizer.visualizeLayerFilters sqrtQ Rsz (some m) layerName meanAct
        objGrad noise iterations lr 10 4 tw th =
      some (FeatureVisualizer.vconcat
        ((FeatureVisualizer.gridRows
            (FeatureVisualizer.filterTiles sqrtQ Rsz m layerName meanAct objGrad noise
              iterations lr tw th 10) 3 4 th tw).map FeatureVisualizer.hconcat)) ∧
    (FeatureVisualizer.gridRows
        (FeatureVisualizer.filterTiles sqrtQ Rsz m layerName meanAct objGrad noise
          iterations lr tw th 10) 3 4 th tw).length = 3 ∧
    (∀ r ∈ FeatureVisualizer.gridRows
        (FeatureVisualizer.filterTiles sqrtQ Rsz m layerName meanAct objGrad noise
          iterations lr tw th 10) 3 4 th tw, r.length = 4) ∧
    (∀ i j : Nat, i * 4 + j < 10 → j < 4 →
      ((FeatureVisualizer.gridRows
            (FeatureVisualizer.filterTiles sqrtQ Rsz m layerName meanAct objGrad noise
              iterations lr tw th 10) 3 4 th tw).getD i []).getD j
          (FeatureVisualizer.blankTile th tw) =
        (FeatureVisualizer.filterTiles sqrtQ Rsz m layerName meanAct objGrad noise
            iterations lr tw th 10).getD (i * 4 + j)
          (FeatureVisualizer.blankTile th tw)) ∧
    ((FeatureVisualizer.gridRows
          (FeatureVisualizer.filterTiles sqrtQ Rsz m layerName meanAct objGrad noise
            iterations lr tw th 10) 3 4 th tw).getD 2 []).getD 2
        (FeatureVisualizer.blankTile th tw) = FeatureVisualizer.blankTile th tw ∧
    ((FeatureVisualizer.gridRows
          (FeatureVisualizer.filterTiles sqrtQ Rsz m layerName meanAct objGrad noise
            iterations lr tw th 10) 3 4 th tw).getD 2 []).getD 3
        (FeatureVisualizer.blankTile th tw) = FeatureVisualizer.blankTile th tw ∧
    (∀ k : Nat, k < 10 →
      FeatureVisualizer.visualizeFilter sqrtQ Rsz (some m) layerName k meanAct objGrad
        (noise k) iterations lr tw th = none →
      (FeatureVisualizer.filterTiles sqrtQ Rsz m layerName meanAct objGrad noise
          iterations lr tw th 10).getD k (FeatureVisualizer.blankTile th tw) =
        FeatureVisualizer.blankTile th tw) := by
  have hfc : min 10 (layer.outputShape.getLastD 0) = 10 := by
    rw [hc]; omega
  have hlen := FeatureVisualizer.filterTiles_length sqrtQ Rsz m layerName meanAct
    objGrad noise iterations lr tw th 10
  refine ⟨?_, FeatureVisualizer.gridRows_length _ _ _ _ _, ?_, ?_, ?_, ?_, ?_⟩
  · have hne : (FeatureVisualizer.filterTiles sqrtQ Rsz m layerName meanAct objGrad
        noise iterations lr tw th 10).isEmpty = false := by
      rw [List.isEmpty_eq_false_iff_exists_mem]
      have h0 : 0 < (FeatureVisualizer.filterTiles sqrtQ Rsz m layerName meanAct
          objGrad noise iterations lr tw th 10).length := by omega
      exact ⟨_, List.getElem_mem h0⟩
    simp only [FeatureVisualizer.visualizeLayerFilters, hl, hfc, hne]
    norm_num
  · intro r hr
    rcases List.mem_map.mp hr with ⟨i, _, rfl⟩
    exact FeatureVisualizer.gridRow_length _ _ _ _ _ (by norm_num)
  · intro i j hij hj
    have hi : i < 3 := by omega
    rw [FeatureVisualizer.gridRows_getD _ _ _ _ _ _ hi]
    exact FeatureVisualizer.gridRow_entry_lt _ _ _ _ _ _ hj (by omega)
  · rw [FeatureVisualizer.gridRows_getD _ _ _ _ _ _ (by norm_num)]
    exact FeatureVisualizer.gridRow_entry_pad _ _ _ _ _ _ (by omega)
  · rw [FeatureVisualizer.gridRows_getD _ _ _ _ _ _ (by norm_num)]
    exact FeatureVisualizer.gridRow_entry_pad _ _ _ _ _ _ (by omega)
  · intro k hk hnone
    rw [FeatureVisualizer.filterTiles_getD _ _ _ _ _ _ _ _ _ _ _ _ _ hk, hnone]
    rfl

/-- Witness for C7: the 10-channel model resolves layer "conv_2" and its
10-filter, width-4 grid has exactly 3 rows. -/
theorem claim_C7_grid_assembly_witness :
    FeatureVisualizer.getLayerF FeatureVisualizer.fvModel10 "conv_2" =
      some { name := "conv_2", outputShape := [1, 7, 7, 10] } ∧
    (FeatureVisualizer.gridRows
        (FeatureVisualizer.filterTiles (fun q => q) (fun t _ _ => t)
          FeatureVisualizer.fvModel10 "conv_2" (fun _ _ => 0) (fun _ _ => [])
          (fun _ => []) 0 1 2 2 10) 3 4 2 2).length = 3 :=
  ⟨rfl, (claim_C7_grid_assembly (fun q => q) (fun t _ _ => t)
      FeatureVisualizer.fvModel10 "conv_2" (fun _ _ => 0) (fun _ _ => [])
      (fun _ => []) 0 1 2 2 { name := "conv_2", outputShape := [1, 7, 7, 10] } 10
      rfl rfl (by norm_num)).2.1⟩

end WhyteBox
